import Mathlib

/-!
# Verification of the SecureHive honeypot dashboard core

Shallow embedding of the analysis core of the repository
(`src/server/services/ai-analyzer.ts`, `src/server/storage.ts`,
`src/server/routes.ts`) and proofs of the specification claims about it.

Modelling conventions:
* JavaScript strings become Lean `String`; `s.includes(t)` becomes `includes s t`
  (substring search over the character list); `s.toLowerCase()` becomes
  `jsToLower` (per-character lowercasing, adequate for the ASCII keywords the
  code matches on).
* `Date` values become `Int` (milliseconds since the epoch, `Date.getTime()`).
* Nullable fields (`payload`, `userAgent`) become `Option String`.
* Untrusted JSON parsed from the remote model reply becomes the `JVal` type;
  JavaScript truthiness and `Number` coercion are modelled on it.
* The analyzer's mutable instance fields (`useAdvancedAnalysis`, `lastApiCall`)
  become an explicit `AnalyzerState` threaded through each operation, and the
  in-place mutation of the caller's log array by `Array.prototype.sort` is
  modelled by returning the final array contents alongside the result.
* `Math.random()`-dependent choices are threaded as explicit parameters.
-/

namespace SecureHive

/-! ## String primitives (JavaScript `includes` / `toLowerCase`) -/

/-- Does the character list `s` start with `p`? (`String.prototype.startsWith`). -/
def charsStartWith : List Char → List Char → Bool
  | _, [] => true
  | [], _ :: _ => false
  | a :: as, b :: bs => a == b && charsStartWith as bs

/-- Does the character list `s` contain `sub` as a contiguous run? -/
def charsContain : List Char → List Char → Bool
  | [], sub => sub.isEmpty
  | a :: as, sub => charsStartWith (a :: as) sub || charsContain as sub

/-- JavaScript `s.includes(sub)`: substring containment. -/
def includes (s sub : String) : Bool :=
  charsContain s.data sub.data

/-- JavaScript `s.toLowerCase()` (per-character; exact on the ASCII keywords
the analyzer matches on). -/
def jsToLower (s : String) : String :=
  ⟨s.data.map Char.toLower⟩

/-! ## Data model (`@shared/schema`) -/

/-- One traffic-log record (`TrafficLog`). Timestamps are epoch milliseconds. -/
structure TrafficLog where
  id : Int
  timestamp : Int
  sourceIP : String
  country : String
  attackType : String
  target : String
  severity : String
  status : String
  payload : Option String
  userAgent : Option String
  method : String
  port : Int
deriving DecidableEq, Repr

/-- An attack-pattern record as inserted by the analyzer
(`InsertAttackPattern`). -/
structure InsertAttackPattern where
  name : String
  description : String
  confidence : Int
  occurrences : Int
  firstSeen : Int
  lastSeen : Int
  technique : String
  riskScore : Int
  status : String
  aiGenerated : Bool
deriving DecidableEq, Repr

/-- A stored attack pattern (`AttackPattern`): the insert shape plus an id. -/
structure AttackPattern where
  id : Int
  name : String
  description : String
  confidence : Int
  occurrences : Int
  firstSeen : Int
  lastSeen : Int
  technique : String
  riskScore : Int
  status : String
  aiGenerated : Bool
deriving DecidableEq, Repr

/-- The heuristic analysis record (`AttackAnalysis` interface). -/
structure AttackAnalysis where
  attackType : String
  technique : String
  riskScore : Int
  recommendations : List String
  confidence : Int
  isNewPattern : Bool
  patternName : Option String
  patternDescription : Option String
deriving DecidableEq, Repr

/-- `log.payload?.toLowerCase() || ''` — the lowercased payload with null
treated as the empty string. -/
def payloadLower (log : TrafficLog) : String :=
  match log.payload with
  | some p => jsToLower p
  | none => ""

/-- `log.userAgent?.toLowerCase() || ''`. -/
def userAgentLower (log : TrafficLog) : String :=
  match log.userAgent with
  | some u => jsToLower u
  | none => ""

/-! ## Heuristic threat scorer (`AIAnalyzer.performEnhancedAnalysis`) -/

/-- Severity contribution of `calculateEnhancedRiskScore`
(`if (log.severity === 'high') score += 4; else if ... 'medium') score += 2`). -/
def severityBonus (log : TrafficLog) : Int :=
  if log.severity == "high" then 4
  else if log.severity == "medium" then 2
  else 0

/-- Attack-type contribution of `calculateEnhancedRiskScore`. -/
def attackTypeBonus (log : TrafficLog) : Int :=
  if includes log.attackType "SQL Injection" then 3
  else if includes log.attackType "Command Injection" then 4
  else if includes log.attackType "XSS" then 2
  else if includes log.attackType "Brute Force" then 2
  else if includes log.attackType "DDoS" then 3
  else 0

/-- Payload-keyword contribution of `calculateEnhancedRiskScore`. -/
def payloadBonus (log : TrafficLog) : Int :=
  (if includes (payloadLower log) "drop table" then 2 else 0) +
  (if includes (payloadLower log) "exec" || includes (payloadLower log) "system" then 3 else 0) +
  (if includes (payloadLower log) "script" then 1 else 0)

/-- Target-sensitivity contribution of `calculateEnhancedRiskScore`
(these checks read `log.target` without lowercasing, as the source does). -/
def targetBonus (log : TrafficLog) : Int :=
  (if includes log.target "admin" || includes log.target "config" then 2 else 0) +
  (if includes log.target "database" || includes log.target "backup" then 2 else 0)

/-- Country contribution (`['CN','RU','KP'].includes(log.country)`). -/
def countryBonus (log : TrafficLog) : Int :=
  if log.country == "CN" || log.country == "RU" || log.country == "KP" then 1 else 0

/-- `AIAnalyzer.calculateEnhancedRiskScore`: start at 1, add the bonuses,
clamp with `Math.min(10, score)`. -/
def calculateEnhancedRiskScore (log : TrafficLog) : Int :=
  min 10 (1 + severityBonus log + attackTypeBonus log + payloadBonus log +
    targetBonus log + countryBonus log)

/-- `AIAnalyzer.calculateConfidence`: base 70, three bonuses, clamp at 95. -/
def calculateConfidence (log : TrafficLog) : Int :=
  min 95 (70 +
    (match log.payload with
     | some p => if 10 < p.length then 10 else 0
     | none => 0) +
    (if includes (payloadLower log) "union select" ||
        includes (payloadLower log) "<script>" then 15 else 0) +
    (if includes log.target "admin" || includes log.target "login" then 10 else 0))

/-- `AIAnalyzer.identifyTechnique`. -/
def identifyTechnique (log : TrafficLog) : String :=
  let payload := payloadLower log
  let userAgent := userAgentLower log
  if includes log.attackType "SQL" then
    if includes payload "union" then "Union-based SQL Injection"
    else if includes payload "sleep" || includes payload "waitfor" then
      "Time-based Blind SQL Injection"
    else if includes payload "and" || includes payload "or" then
      "Boolean-based Blind SQL Injection"
    else if includes payload "into outfile" then "File-based SQL Injection"
    else "Classic SQL Injection"
  else if includes log.attackType "XSS" then
    if includes payload "document." then "DOM-based XSS"
    else if includes payload "onload" || includes payload "onerror" then "Event-based XSS"
    else if includes payload "javascript:" then "JavaScript Protocol XSS"
    else "Reflected XSS"
  else if includes log.attackType "Brute" then
    if includes userAgent "curl" || includes userAgent "python" then "Automated Brute Force"
    else if log.country == "CN" || log.country == "RU" then "Distributed Brute Force"
    else "Dictionary-based Brute Force"
  else if includes log.attackType "DDoS" then
    if log.method == "GET" then "HTTP GET Flood"
    else if log.method == "POST" then "HTTP POST Flood"
    else "Layer 7 DDoS Attack"
  else if includes log.attackType "Directory" then
    if includes payload "..\\" then "Windows Path Traversal"
    else if includes payload "../" then "Unix Path Traversal"
    else "Directory Traversal Attack"
  else "Advanced Persistent Threat"

/-- `AIAnalyzer.getEnhancedRecommendations`: category block, then geo block,
then three general recommendations, in that order. -/
def getEnhancedRecommendations (log : TrafficLog) : List String :=
  (if includes log.attackType "SQL Injection" then
    ["Implement parameterized queries and prepared statements",
     "Enable SQL injection protection in WAF",
     "Conduct regular security code reviews",
     "Implement least privilege database access"]
   else if includes log.attackType "XSS" then
    ["Implement Content Security Policy (CSP)",
     "Sanitize and validate all user inputs",
     "Use XSS protection headers",
     "Encode output data properly"]
   else if includes log.attackType "Brute Force" then
    ["Implement rate limiting and account lockout",
     "Enable multi-factor authentication",
     "Use CAPTCHA for repeated attempts",
     "Monitor for suspicious login patterns"]
   else if includes log.attackType "DDoS" then
    ["Deploy DDoS protection service",
     "Implement traffic rate limiting",
     "Configure load balancing",
     "Set up automatic scaling"]
   else []) ++
  (if log.country == "CN" || log.country == "RU" || log.country == "KP" then
    ["Consider geo-blocking for high-risk countries",
     "Implement enhanced monitoring for this region"]
   else []) ++
  ["Update security monitoring rules",
   "Review and update firewall configurations",
   "Conduct threat hunting exercises"]

/-- `AIAnalyzer.detectNewPattern`. The final `Math.random() > 0.85` draw is
threaded in as the explicit boolean `randNew`. -/
def detectNewPattern (log : TrafficLog) (randNew : Bool) : Bool :=
  let payload := payloadLower log
  let userAgent := userAgentLower log
  if includes payload "%u" || includes payload "&#x" then true
  else if includes userAgent "bot" && !(includes userAgent "googlebot") then true
  else if includes log.target ".env" || includes log.target ".git" then true
  else if includes payload "$\x7b" && includes payload "\x7d" then true
  else randNew

/-- The fixed pool used by `AIAnalyzer.generatePatternName`. -/
def patternNamePool : List String :=
  ["Advanced SQL Injection Variant", "Encoded XSS Attack Pattern",
   "Hybrid Brute Force Campaign", "Polymorphic Script Injection",
   "Zero-Day Exploit Attempt", "AI-Evading Attack Vector",
   "Multi-Stage Payload Delivery", "Obfuscated Command Injection"]

/-- `AIAnalyzer.generatePatternName`; `Math.floor(Math.random()*8)` is
threaded in as `randName`, reduced modulo the pool size. -/
def generatePatternName (randName : Nat) : String :=
  patternNamePool.getD (randName % patternNamePool.length) ""

/-- `AIAnalyzer.generatePatternDescription`. -/
def generatePatternDescription (log : TrafficLog) : String :=
  "Novel attack pattern detected from " ++ log.sourceIP ++ " targeting " ++
    log.target ++
    ". Uses advanced techniques to bypass traditional security measures with confidence indicators suggesting coordinated attack campaign."

/-- `AIAnalyzer.performEnhancedAnalysis`: the heuristic fallback analysis. -/
def performEnhancedAnalysis (log : TrafficLog) (randNew : Bool) (randName : Nat) :
    AttackAnalysis :=
  let isNew := detectNewPattern log randNew
  { attackType := log.attackType
    technique := identifyTechnique log
    riskScore := calculateEnhancedRiskScore log
    recommendations := getEnhancedRecommendations log
    confidence := calculateConfidence log
    isNewPattern := isNew
    patternName := if isNew then some (generatePatternName randName) else none
    patternDescription := if isNew then some (generatePatternDescription log) else none }

/-! ## Untrusted JSON from the remote model (`JSON.parse` of the reply) -/

/-- A JSON-ish JavaScript value as it reaches the merge code: the result of
`JSON.parse` plus `undefined` for an absent property.  Arrays are modelled as
arrays of strings (the only array the merge inspects is `recommendations`) and
nested objects as the opaque `jobj`. -/
inductive JVal where
  | jnum (n : Int)
  | jstr (s : String)
  | jbool (b : Bool)
  | jnull
  | jarr (xs : List String)
  | jobj
  | jundef
deriving DecidableEq, Repr

/-- JavaScript truthiness.  (A JSON-parsed number is never `NaN`, so `jnum n`
is truthy exactly when `n ≠ 0`.) -/
def JVal.truthy : JVal → Bool
  | jnum n => n != 0
  | jstr s => s != ""
  | jbool b => b
  | jnull => false
  | jarr _ => true
  | jobj => true
  | jundef => false

/-- Whitespace ignored by JavaScript `Number(...)` string coercion. -/
def isJsSpace (c : Char) : Bool :=
  c == ' ' || c == '\t' || c == '\n' || c == '\r'

/-- Strip leading and trailing whitespace from a character list. -/
def charsTrim (l : List Char) : List Char :=
  ((l.dropWhile isJsSpace).reverse.dropWhile isJsSpace).reverse

/-- Decimal value of a digit list. -/
def digitsToNat (l : List Char) : Nat :=
  l.foldl (fun n c => 10 * n + (c.toNat - 48)) 0

/-- `Number(s)` for a string, as an `Option Int` with `none` standing for
`NaN`: an all-whitespace string coerces to 0, an optionally signed decimal
numeral to its value, anything else to `NaN`.  (JavaScript also parses
fractional, hex and exponent forms that an `Int` model cannot carry; the
claims only exercise integral and non-numeric strings.) -/
def jsStringToNumber (s : String) : Option Int :=
  match charsTrim s.data with
  | [] => some 0
  | '-' :: ds =>
    if ds.isEmpty then none
    else if ds.all Char.isDigit then some (-(digitsToNat ds : Int)) else none
  | '+' :: ds =>
    if ds.isEmpty then none
    else if ds.all Char.isDigit then some (digitsToNat ds) else none
  | ds => if ds.all Char.isDigit then some (digitsToNat ds) else none

/-- JavaScript `Number(v)` coercion, with `none` standing for `NaN`. -/
def JVal.toNumber : JVal → Option Int
  | jnum n => some n
  | jstr s => jsStringToNumber s
  | jbool b => some (if b then 1 else 0)
  | jnull => some 0
  | jarr [] => some 0
  | jarr [x] => jsStringToNumber x
  | jarr _ => none
  | jobj => none
  | jundef => none

/-- JavaScript `a || b`. -/
def jsOr (a b : JVal) : JVal :=
  if a.truthy then a else b

/-- Inject an optional string (e.g. the fallback's `patternName`, which is
`undefined` or a string) into `JVal`. -/
def optToJVal : Option String → JVal
  | none => .jundef
  | some s => .jstr s

/-! ## External LLM analysis adapter (`AIAnalyzer.performAIAnalysis` merge) -/

/-- The parsed remote reply for a single-log analysis: each property is an
arbitrary JSON value, `jundef` when the reply omits it. -/
structure RemoteAnalysis where
  attackType : JVal
  technique : JVal
  riskScore : JVal
  recommendations : JVal
  confidence : JVal
  isNewPattern : JVal
  patternName : JVal
  patternDescription : JVal
deriving DecidableEq, Repr

/-- The merged analysis the adapter returns on remote success.  Because the
source keeps whatever truthy JavaScript value the reply carried, the string
fields stay `JVal`; `riskScore`/`confidence` are the result of
`Math.max(lo, Math.min(hi, v))`, an `Option Int` with `none` for `NaN`. -/
structure MergedAnalysis where
  attackType : JVal
  technique : JVal
  riskScore : Option Int
  recommendations : List JVal
  confidence : Option Int
  isNewPattern : Bool
  patternName : JVal
  patternDescription : JVal
deriving DecidableEq, Repr

/-- The merge in `AIAnalyzer.performAIAnalysis` (source lines 99–108):
`field: analysis.field || fallback.field` for the string-ish fields,
`Math.max(1, Math.min(10, analysis.riskScore || fallback.riskScore))`,
`Math.max(0, Math.min(100, analysis.confidence || fallback.confidence))`,
`Array.isArray` guard for recommendations, and
`Boolean(analysis.isNewPattern) || fallback.isNewPattern`. -/
def mergeAnalysis (a : RemoteAnalysis) (fb : AttackAnalysis) : MergedAnalysis :=
  { attackType := jsOr a.attackType (.jstr fb.attackType)
    technique := jsOr a.technique (.jstr fb.technique)
    riskScore := ((jsOr a.riskScore (.jnum fb.riskScore)).toNumber).map
      (fun n => max 1 (min 10 n))
    recommendations :=
      match a.recommendations with
      | .jarr xs => xs.map .jstr
      | _ => fb.recommendations.map .jstr
    confidence := ((jsOr a.confidence (.jnum fb.confidence)).toNumber).map
      (fun n => max 0 (min 100 n))
    isNewPattern := (a.isNewPattern.truthy || fb.isNewPattern)
    patternName := jsOr a.patternName (optToJVal fb.patternName)
    patternDescription := jsOr a.patternDescription (optToJVal fb.patternDescription) }

/-! ## Rate-limited adapter state (`AIAnalyzer.analyzeTrafficLog`) -/

/-- The analyzer's mutable instance fields: `useAdvancedAnalysis` and
`lastApiCall` (epoch milliseconds; initially `0`). -/
structure AnalyzerState where
  useAdvancedAnalysis : Bool
  lastApiCall : Int
deriving DecidableEq, Repr

/-- `apiCallDelay = 2000` — minimum milliseconds between remote calls. -/
def apiCallDelay : Int := 2000

/-- Outcome of one attempted remote chat completion for a single log. -/
inductive RemoteAnalysisOutcome where
  | ok (resp : RemoteAnalysis)
  | err (quota : Bool)
deriving DecidableEq, Repr

/-- What `analyzeTrafficLog` returns: the merged remote analysis or the
plain heuristic analysis. -/
inductive AnalysisResult where
  | merged (m : MergedAnalysis)
  | plain (a : AttackAnalysis)
deriving DecidableEq, Repr

/-- One call of `AIAnalyzer.analyzeTrafficLog` at wall-clock time `now`:
returns the analysis, the new analyzer state, and the number of remote
invocations performed (0 or 1).  `canMakeApiCall` is inlined: it is reached
only when `useAdvancedAnalysis` holds (`&&` short-circuit) and it sets
`lastApiCall := now` exactly when it returns `true`.  A quota error
(`status === 429`) clears `useAdvancedAnalysis` (the 5-minute re-enable timer
is outside this step). -/
def analyzeTrafficLog (s : AnalyzerState) (now : Int) (log : TrafficLog)
    (randNew : Bool) (randName : Nat) (remote : RemoteAnalysisOutcome) :
    AnalysisResult × AnalyzerState × Nat :=
  let fb := performEnhancedAnalysis log randNew randName
  if s.useAdvancedAnalysis then
    if now - s.lastApiCall < apiCallDelay then (.plain fb, s, 0)
    else
      let s1 : AnalyzerState := { s with lastApiCall := now }
      match remote with
      | .ok resp => (.merged (mergeAnalysis resp fb), s1, 1)
      | .err quota =>
        (.plain fb, if quota then { s1 with useAdvancedAnalysis := false } else s1, 1)
  else (.plain fb, s, 0)

/-! ## Anomaly batch analyzer (`AIAnalyzer.detectAnomalies` and helpers) -/

/-- `Math.min(...xs)` over a nonempty list (`none` only for the empty list,
which the call sites never produce). -/
def jsMinList : List Int → Option Int
  | [] => none
  | a :: as => some (as.foldl min a)

/-- `Math.max(...xs)` over a nonempty list. -/
def jsMaxList : List Int → Option Int
  | [] => none
  | a :: as => some (as.foldl max a)

/-- Insert one log into the `Map<string, TrafficLog[]>` grouping of
`AIAnalyzer.groupByIP`: a `Map.set` on an existing key keeps its position and
appends to its list; a new key is appended at the end (JavaScript `Map`
iteration order is insertion order). -/
def insertGroup (groups : List (String × List TrafficLog)) (l : TrafficLog) :
    List (String × List TrafficLog) :=
  match groups with
  | [] => [(l.sourceIP, [l])]
  | (ip, ls) :: rest =>
    if ip == l.sourceIP then (ip, ls ++ [l]) :: rest
    else (ip, ls) :: insertGroup rest l

/-- `AIAnalyzer.groupByIP`. -/
def groupByIP (logs : List TrafficLog) : List (String × List TrafficLog) :=
  logs.foldl insertGroup []

/-- The pattern the loop body of `AIAnalyzer.detectCoordinatedAttacks` emits
for one group, when the group has at least 3 logs over at least 2 distinct
attack types. -/
def mkCoordPattern (entry : String × List TrafficLog) : Option InsertAttackPattern :=
  let ip := entry.1
  let ls := entry.2
  if 3 ≤ ls.length then
    let distinctTypes := ((ls.map (fun l => l.attackType)).dedup).length
    if 2 ≤ distinctTypes then
      some { name := "Multi-Vector Coordinated Attack"
             description := "Coordinated attack from " ++ ip ++ " using " ++
               toString distinctTypes ++
               " different attack vectors within short timeframe"
             confidence := 85
             occurrences := ls.length
             firstSeen := (jsMinList (ls.map (fun l => l.timestamp))).getD 0
             lastSeen := (jsMaxList (ls.map (fun l => l.timestamp))).getD 0
             technique := "Multi-stage attack coordination"
             riskScore := 8
             status := "new"
             aiGenerated := true }
    else none
  else none

/-- `AIAnalyzer.detectCoordinatedAttacks`. -/
def detectCoordinatedAttacks (ipGroups : List (String × List TrafficLog)) :
    List InsertAttackPattern :=
  ipGroups.filterMap mkCoordPattern

/-- Ascending-timestamp ordering used by the in-place
`logs.sort((a, b) => a.timestamp.getTime() - b.timestamp.getTime())`. -/
def tsLE (a b : TrafficLog) : Prop := a.timestamp ≤ b.timestamp

instance : DecidableRel tsLE := fun a b => Int.decLe a.timestamp b.timestamp

instance : IsTotal TrafficLog tsLE := ⟨fun a b => Int.le_total a.timestamp b.timestamp⟩

instance : IsTrans TrafficLog tsLE := ⟨fun _ _ _ h h' => Int.le_trans h h'⟩

/-- The in-place `Array.prototype.sort` by ascending timestamp.  The sort is
stable (required by the language spec), and a stable sort for a total
preorder is extensionally unique, so insertion sort is a faithful model. -/
def sortByTimestamp (logs : List TrafficLog) : List TrafficLog :=
  List.insertionSort tsLE logs

/-- The pattern for one adjacent reconnaissance-to-exploitation pair in
`AIAnalyzer.detectAttackSequences`. -/
def mkSeqPattern (current next : TrafficLog) : InsertAttackPattern :=
  { name := "Reconnaissance-to-Exploitation Sequence"
    description := "Attack sequence from " ++ current.sourceIP ++
      ": reconnaissance phase followed by SQL injection"
    confidence := 80
    occurrences := 2
    firstSeen := current.timestamp
    lastSeen := next.timestamp
    technique := "Multi-stage attack progression"
    riskScore := 9
    status := "new"
    aiGenerated := true }

/-- The adjacent-pair scan of `AIAnalyzer.detectAttackSequences`, applied to
the already-sorted list. -/
def seqScanPairs : List TrafficLog → List InsertAttackPattern
  | a :: b :: rest =>
    (if a.sourceIP == b.sourceIP && includes a.attackType "Directory" &&
        includes b.attackType "SQL"
     then [mkSeqPattern a b] else []) ++ seqScanPairs (b :: rest)
  | _ => []

/-- First-occurrence-ordered list of distinct values (JavaScript `Map` key
iteration order for `countryCounts`). -/
def firstOccurrences (l : List String) : List String :=
  l.foldl (fun acc c => if acc.contains c then acc else acc ++ [c]) []

/-- `AIAnalyzer.detectGeographicAnomalies`; `now` is the wall clock read by
the two `new Date()` calls. -/
def detectGeographicAnomalies (logs : List TrafficLog) (now : Int) :
    List InsertAttackPattern :=
  let countries := logs.map (fun l => l.country)
  (firstOccurrences countries).filterMap (fun c =>
    let cnt := countries.count c
    if 5 ≤ cnt && !(c == "CN" || c == "RU" || c == "US") then
      some { name := "Geographic Attack Concentration"
             description := "Unusual concentration of attacks from " ++ c ++
               " (" ++ toString cnt ++ " attempts)"
             confidence := 75
             occurrences := cnt
             firstSeen := now
             lastSeen := now
             technique := "Geographic attack clustering"
             riskScore := 6
             status := "new"
             aiGenerated := true }
    else none)

/-- `AIAnalyzer.detectPayloadAnomalies`; `now` is the wall clock read by the
`new Date()` calls. -/
def detectPayloadAnomalies (logs : List TrafficLog) (now : Int) :
    List InsertAttackPattern :=
  let payloads := (logs.map payloadLower).filter (fun p => 0 < p.length)
  let encoded := payloads.filter (fun p =>
    includes p "%u" || includes p "&#x" || includes p "base64")
  let polyglot := payloads.filter (fun p =>
    (includes p "script" && includes p "union") ||
    (includes p "alert" && includes p "drop"))
  (if 2 ≤ encoded.length then
    [{ name := "Encoded Payload Attack Pattern"
       description := "Multiple attacks using encoded payloads to evade detection (" ++
         toString encoded.length ++ " instances)"
       confidence := 85
       occurrences := encoded.length
       firstSeen := now
       lastSeen := now
       technique := "Payload encoding evasion"
       riskScore := 7
       status := "new"
       aiGenerated := true }]
   else []) ++
  (if 1 ≤ polyglot.length then
    [{ name := "Polyglot Attack Vector"
       description := "Attacks using polyglot payloads targeting multiple vulnerabilities simultaneously"
       confidence := 90
       occurrences := polyglot.length
       firstSeen := now
       lastSeen := now
       technique := "Multi-vulnerability exploitation"
       riskScore := 9
       status := "new"
       aiGenerated := true }]
   else [])

/-- `AIAnalyzer.performRuleBasedAnomalyDetection` at wall-clock time `now`.
It groups and scans the batch **in the order it arrives**, then
`detectAttackSequences` sorts the caller's array in place, and the geographic
and payload detectors run over the sorted array.  The final array contents
are returned as the second component. -/
def performRuleBasedAnomalyDetection (logs : List TrafficLog) (now : Int) :
    List InsertAttackPattern × List TrafficLog :=
  let coordinated := detectCoordinatedAttacks (groupByIP logs)
  let sorted := sortByTimestamp logs
  let sequences := seqScanPairs sorted
  let geo := detectGeographicAnomalies sorted now
  let payload := detectPayloadAnomalies sorted now
  (coordinated ++ sequences ++ geo ++ payload, sorted)

/-! ## Batch entry point `AIAnalyzer.detectAnomalies` with the AI branch -/

/-- One anomaly object of the parsed remote reply array. -/
structure RemoteAnomaly where
  name : JVal
  description : JVal
  confidence : JVal
  occurrences : JVal
  technique : JVal
  riskScore : JVal
deriving DecidableEq, Repr

/-- An AI-merged anomaly pattern: the source keeps whatever truthy JavaScript
values the reply carried, so the string-ish fields stay `JVal` and the two
clamped numerics are `Option Int` (`none` = `NaN`). -/
structure JInsertAttackPattern where
  name : JVal
  description : JVal
  confidence : Option Int
  occurrences : JVal
  firstSeen : Int
  lastSeen : Int
  technique : JVal
  riskScore : Option Int
  status : String
  aiGenerated : Bool
deriving DecidableEq, Repr

/-- The mapping each remote anomaly undergoes in
`AIAnalyzer.performAIAnomalyDetection` (source lines 398–409). -/
def mapAIAnomaly (now : Int) (a : RemoteAnomaly) : JInsertAttackPattern :=
  { name := jsOr a.name (.jstr "AI-Detected Anomaly")
    description := jsOr a.description (.jstr "Advanced anomaly detected by AI analysis")
    confidence := ((jsOr a.confidence (.jnum 75)).toNumber).map
      (fun n => max 0 (min 100 n))
    occurrences := jsOr a.occurrences (.jnum 1)
    firstSeen := now
    lastSeen := now
    technique := jsOr a.technique (.jstr "Unknown AI-detected technique")
    riskScore := ((jsOr a.riskScore (.jnum 7)).toNumber).map
      (fun n => max 1 (min 10 n))
    status := "new"
    aiGenerated := true }

/-- Outcome of one attempted remote anomaly-detection call. -/
inductive RemoteAnomalyOutcome where
  | ok (anomalies : List RemoteAnomaly)
  | err (quota : Bool)
deriving DecidableEq, Repr

/-- One call of `AIAnalyzer.detectAnomalies` at wall-clock time `now`:
returns the emitted patterns (rule-based ones on the left of the sum, AI-merged
ones on the right), the final contents of the caller's array, the new analyzer
state, and the number of remote invocations (0 or 1).  An empty batch returns
immediately, before the rule-based detectors and before `canMakeApiCall`. -/
def detectAnomalies (s : AnalyzerState) (now : Int) (logs : List TrafficLog)
    (remote : RemoteAnomalyOutcome) :
    List (Sum InsertAttackPattern JInsertAttackPattern) × List TrafficLog ×
      AnalyzerState × Nat :=
  match logs with
  | [] => ([], [], s, 0)
  | l :: ls =>
    let res := performRuleBasedAnomalyDetection (l :: ls) now
    let ruleBased := res.1.map Sum.inl
    if s.useAdvancedAnalysis then
      if now - s.lastApiCall < apiCallDelay then (ruleBased, res.2, s, 0)
      else
        let s1 : AnalyzerState := { s with lastApiCall := now }
        match remote with
        | .ok anomalies =>
          (ruleBased ++ anomalies.map (fun a => Sum.inr (mapAIAnomaly now a)),
           res.2, s1, 1)
        | .err quota =>
          (ruleBased, res.2,
           if quota then { s1 with useAdvancedAnalysis := false } else s1, 1)
    else (ruleBased, res.2, s, 0)

/-! ## Persistence gateway — `DatabaseStorage` (`storage.ts`, the instance the
routes use: `export const storage = new DatabaseStorage()`).  The relational
table is modelled as a list of rows. -/

/-- The query-alias table for `attackType` filters (`typeMap`). -/
def attackTypeAlias (t : String) : Option String :=
  if t == "sql" then some "SQL Injection"
  else if t == "xss" then some "XSS"
  else if t == "brute" then some "Brute Force"
  else if t == "ddos" then some "DDoS"
  else none

/-- The WHERE conditions both `DatabaseStorage.getTrafficLogs` and
`DatabaseStorage.getTrafficLogCount` build: a condition is only pushed for a
truthy filter value that is not `'all'`; an unrecognised attack-type alias
pushes no condition; the `ipAddress` condition is a `LIKE %…%` substring
match. -/
def dbCondHolds (severity attackType ipAddress : Option String) (l : TrafficLog) : Bool :=
  (match severity with
   | some s => if s != "" && s != "all" then l.severity == s else true
   | none => true) &&
  (match attackType with
   | some t =>
     if t != "" && t != "all" then
       match attackTypeAlias t with
       | some m => includes l.attackType m
       | none => true
     else true
   | none => true) &&
  (match ipAddress with
   | some ip => if ip != "" then includes l.sourceIP ip else true
   | none => true)

/-- Descending-timestamp ordering of `ORDER BY timestamp DESC`. -/
def tsGE (a b : TrafficLog) : Prop := b.timestamp ≤ a.timestamp

instance : DecidableRel tsGE := fun a b => Int.decLe b.timestamp a.timestamp

/-- `DatabaseStorage.getTrafficLogs`: filter, order by timestamp descending,
then SQL `LIMIT lim OFFSET off` (the offset rows are skipped first); a clause
is only present when the corresponding filter value is truthy. -/
def dbGetTrafficLogs (db : List TrafficLog) (severity attackType ipAddress : Option String)
    (lim off : Option Nat) : List TrafficLog :=
  let filtered := db.filter (dbCondHolds severity attackType ipAddress)
  let ordered := List.insertionSort tsGE filtered
  let offed := match off with
    | some o => ordered.drop o
    | none => ordered
  match lim with
  | some n => offed.take n
  | none => offed

/-- `DatabaseStorage.getTrafficLogCount`: a `SELECT count(*)` under the same
conditions; the limit/offset fields of the route's filter object are outside
its signature and are never applied. -/
def dbGetTrafficLogCount (db : List TrafficLog) (severity attackType ipAddress : Option String) :
    Nat :=
  (db.filter (dbCondHolds severity attackType ipAddress)).length

/-- The response of `GET /api/traffic-logs`. -/
structure TrafficLogsResponse where
  data : List TrafficLog
  total : Nat
  page : Nat
  limit : Nat
  totalPages : Nat
deriving DecidableEq, Repr

/-- The `GET /api/traffic-logs` handler (`routes.ts` lines 26–56) over the
database-backed storage.  `pageNum`/`limitNum` are the already-parsed
`parseInt` results (positive in every claim); `offset = (pageNum - 1) *
limitNum`; a zero limit or offset is falsy in the drizzle chain, so no
clause is added for it; `Math.ceil(total / limitNum)` on non-negative
integers with a positive divisor is ceiling division. -/
def getTrafficLogsRoute (db : List TrafficLog)
    (severity attackType ipAddress : Option String) (pageNum limitNum : Nat) :
    TrafficLogsResponse :=
  let offset := (pageNum - 1) * limitNum
  let logs := dbGetTrafficLogs db severity attackType ipAddress
    (if limitNum != 0 then some limitNum else none)
    (if offset != 0 then some offset else none)
  let total := dbGetTrafficLogCount db severity attackType ipAddress
  { data := logs
    total := total
    page := pageNum
    limit := limitNum
    totalPages := (total + limitNum - 1) / limitNum }

/-! ## PATCH /api/attack-patterns/:id (`routes.ts` lines 89–107 with
`MemStorage.updateAttackPatternStatus`; `DatabaseStorage` behaves the same:
the status string is stored verbatim). -/

/-- `updateAttackPatternStatus`: look the pattern up by id, overwrite its
status verbatim, and return the updated pattern; `none` when the id is
unknown.  The store is a map keyed by unique ids, modelled as a list. -/
def updateAttackPatternStatus (store : List AttackPattern) (id : Int) (status : String) :
    Option AttackPattern × List AttackPattern :=
  match store.find? (fun p => p.id == id) with
  | none => (none, store)
  | some p =>
    let p' : AttackPattern := { p with status := status }
    (some p', store.map (fun q => if q.id == id then p' else q))

/-- Response of the PATCH handler. -/
inductive PatchResult where
  | badRequest
  | notFound
  | ok (p : AttackPattern)
deriving DecidableEq, Repr

/-- The PATCH handler: `!status` (absent or empty string) gives 400; an
unknown id gives 404; otherwise the status is stored verbatim and the
updated pattern returned — the handler performs no validation against the
status enumeration. -/
def patchAttackPatternStatus (store : List AttackPattern) (id : Int)
    (status : Option String) : PatchResult × List AttackPattern :=
  match status with
  | none => (.badRequest, store)
  | some st =>
    if st == "" then (.badRequest, store)
    else
      match updateAttackPatternStatus store id st with
      | (none, s') => (.notFound, s')
      | (some p, s') => (.ok p, s')

/-- The four enumerated `AttackPattern` statuses of the data model. -/
def enumeratedStatuses : List String :=
  ["new", "under_review", "confirmed", "added_to_dataset"]

/-! ## Helper lemmas -/

lemma severityBonus_nonneg (log : TrafficLog) : 0 ≤ severityBonus log := by
  unfold severityBonus; split_ifs <;> omega

lemma attackTypeBonus_nonneg (log : TrafficLog) : 0 ≤ attackTypeBonus log := by
  unfold attackTypeBonus; split_ifs <;> omega

lemma payloadBonus_nonneg (log : TrafficLog) : 0 ≤ payloadBonus log := by
  unfold payloadBonus; split_ifs <;> omega

lemma targetBonus_nonneg (log : TrafficLog) : 0 ≤ targetBonus log := by
  unfold targetBonus; split_ifs <;> omega

lemma countryBonus_nonneg (log : TrafficLog) : 0 ≤ countryBonus log := by
  unfold countryBonus; split_ifs <;> omega

lemma calculateEnhancedRiskScore_lb (log : TrafficLog) :
    1 ≤ calculateEnhancedRiskScore log := by
  unfold calculateEnhancedRiskScore
  have h1 := severityBonus_nonneg log
  have h2 := attackTypeBonus_nonneg log
  have h3 := payloadBonus_nonneg log
  have h4 := targetBonus_nonneg log
  have h5 := countryBonus_nonneg log
  omega

lemma calculateEnhancedRiskScore_ub (log : TrafficLog) :
    calculateEnhancedRiskScore log ≤ 10 := by
  unfold calculateEnhancedRiskScore
  omega

lemma calculateConfidence_lb (log : TrafficLog) : 70 ≤ calculateConfidence log := by
  unfold calculateConfidence
  cases log.payload <;> dsimp only <;> split_ifs <;> omega

lemma calculateConfidence_ub (log : TrafficLog) : calculateConfidence log ≤ 95 := by
  unfold calculateConfidence
  cases log.payload <;> dsimp only <;> split_ifs <;> omega

/-- Substring containment is preserved by mapping a character function over
both strings. -/
lemma charsStartWith_map (f : Char → Char) :
    ∀ s p : List Char, charsStartWith s p = true →
      charsStartWith (s.map f) (p.map f) = true := by
  intro s
  induction s with
  | nil =>
    intro p h
    cases p with
    | nil => simp [charsStartWith]
    | cons b bs => simp [charsStartWith] at h
  | cons a as ih =>
    intro p h
    cases p with
    | nil => simp [charsStartWith]
    | cons b bs =>
      simp only [charsStartWith, Bool.and_eq_true, beq_iff_eq] at h
      simp only [List.map_cons, charsStartWith, Bool.and_eq_true, beq_iff_eq]
      exact ⟨congrArg f h.1, ih bs h.2⟩

lemma charsContain_map (f : Char → Char) :
    ∀ s sub : List Char, charsContain s sub = true →
      charsContain (s.map f) (sub.map f) = true := by
  intro s
  induction s with
  | nil =>
    intro sub h
    cases sub with
    | nil => simp [charsContain]
    | cons b bs => simp [charsContain, List.isEmpty] at h
  | cons a as ih =>
    intro sub h
    simp only [charsContain, Bool.or_eq_true] at h
    simp only [List.map_cons, charsContain, Bool.or_eq_true]
    rcases h with h | h
    · exact Or.inl (charsStartWith_map f (a :: as) sub h)
    · exact Or.inr (ih sub h)

/-- If `sub` is fixed by lowercasing, containment in `s` transfers to
containment in the lowercased `s`. -/
lemma includes_jsToLower {s sub : String} (hfix : jsToLower sub = sub)
    (h : includes s sub = true) : includes (jsToLower s) sub = true := by
  have h2 := charsContain_map Char.toLower s.data sub.data h
  have hfix' : sub.data.map Char.toLower = sub.data := congrArg String.data hfix
  rw [hfix'] at h2
  exact h2

/-! ## Claim C4 -/

/-- C4: for every TrafficLog input — including logs whose optional payload and
user-agent fields are null, which the scorer reads as empty strings — the
heuristic analysis is total and has riskScore in [1,10] and confidence in
[0,100] (indeed in [70,95]), for every draw of the random inputs. -/
theorem claim_C4_heuristic_total_bounds (log : TrafficLog) (randNew : Bool) (randName : Nat) :
    1 ≤ (performEnhancedAnalysis log randNew randName).riskScore ∧
    (performEnhancedAnalysis log randNew randName).riskScore ≤ 10 ∧
    0 ≤ (performEnhancedAnalysis log randNew randName).confidence ∧
    (performEnhancedAnalysis log randNew randName).confidence ≤ 100 := by
  refine ⟨calculateEnhancedRiskScore_lb log, calculateEnhancedRiskScore_ub log, ?_, ?_⟩
  · have := calculateConfidence_lb log
    show (0 : Int) ≤ calculateConfidence log
    omega
  · have := calculateConfidence_ub log
    show calculateConfidence log ≤ (100 : Int)
    omega

/-! ## Claim C5 -/

/-- C5: a log with severity `high`, attackType containing "Command Injection",
payload containing "drop table" and "exec", target containing "admin", and
source country "RU" scores exactly 10. -/
theorem claim_C5_max_risk_scenario (log : TrafficLog) (p : String)
    (hp : log.payload = some p)
    (hsev : log.severity = "high")
    (hct : includes log.attackType "Command Injection" = true)
    (hdrop : includes p "drop table" = true)
    (hexec : includes p "exec" = true)
    (htar : includes log.target "admin" = true)
    (hcty : log.country = "RU") :
    calculateEnhancedRiskScore log = 10 := by
  have hpl : payloadLower log = jsToLower p := by
    unfold payloadLower; rw [hp]
  have hdrop' : includes (payloadLower log) "drop table" = true := by
    rw [hpl]; exact includes_jsToLower (by decide) hdrop
  have hexec' : includes (payloadLower log) "exec" = true := by
    rw [hpl]; exact includes_jsToLower (by decide) hexec
  have h1 : severityBonus log = 4 := by
    unfold severityBonus
    rw [hsev]
    decide
  have h2 : 3 ≤ attackTypeBonus log := by
    unfold attackTypeBonus
    by_cases hsql : includes log.attackType "SQL Injection" = true
    · rw [if_pos hsql]
    · rw [if_neg hsql, if_pos hct]
      omega
  have h3 : 5 ≤ payloadBonus log := by
    have hor : (includes (payloadLower log) "exec" ||
        includes (payloadLower log) "system") = true := by
      rw [hexec']
      rfl
    unfold payloadBonus
    rw [if_pos hdrop', if_pos hor]
    split_ifs <;> omega
  have h4 : 2 ≤ targetBonus log := by
    have hor : (includes log.target "admin" || includes log.target "config") = true := by
      rw [htar]
      rfl
    unfold targetBonus
    rw [if_pos hor]
    split_ifs <;> omega
  have h5 : countryBonus log = 1 := by
    unfold countryBonus
    rw [hcty]
    decide
  unfold calculateEnhancedRiskScore
  omega

/-- C5 witness log: a concrete high-severity command-injection event. -/
def c5Log : TrafficLog :=
  { id := 1
    timestamp := 1700000000000
    sourceIP := "203.0.113.7"
    country := "RU"
    attackType := "Command Injection"
    target := "/admin/panel"
    severity := "high"
    status := "monitored"
    payload := some "; drop table users; exec xp_cmdshell"
    userAgent := some "curl/8.0"
    method := "POST"
    port := 443 }

/-- Witness for C5: the hypotheses hold at `c5Log` and its risk score is 10. -/
theorem claim_C5_max_risk_scenario_witness :
    c5Log.payload = some "; drop table users; exec xp_cmdshell" ∧
    c5Log.severity = "high" ∧
    includes c5Log.attackType "Command Injection" = true ∧
    includes "; drop table users; exec xp_cmdshell" "drop table" = true ∧
    includes "; drop table users; exec xp_cmdshell" "exec" = true ∧
    includes c5Log.target "admin" = true ∧
    c5Log.country = "RU" ∧
    calculateEnhancedRiskScore c5Log = 10 :=
  ⟨rfl, rfl, by decide, by decide, by decide, by decide, rfl,
    claim_C5_max_risk_scenario c5Log "; drop table users; exec xp_cmdshell"
      rfl rfl (by decide) (by decide) (by decide) (by decide) rfl⟩

/-! ## Claim C10 -/

/-- C10: an empty batch makes `detectAnomalies` return the empty pattern list
at once — no remote invocation, no rule-based detection, and the adapter's
rate-limit state (both `useAdvancedAnalysis` and `lastApiCall`) unchanged —
whatever the state, clock, and pending remote outcome. -/
theorem claim_C10_empty_batch_early_return (s : AnalyzerState) (now : Int)
    (remote : RemoteAnomalyOutcome) :
    detectAnomalies s now [] remote = ([], [], s, 0) := rfl

/-! ## Claim C9 -/

lemma detectAnomalies_array (s : AnalyzerState) (now : Int) (l : TrafficLog)
    (ls : List TrafficLog) (remote : RemoteAnomalyOutcome) :
    (detectAnomalies s now (l :: ls) remote).2.1 = sortByTimestamp (l :: ls) := by
  unfold detectAnomalies
  dsimp only
  split
  · split
    · rfl
    · split <;> rfl
  · rfl

/-- C9: after `detectAnomalies` returns, the caller's array holds a
permutation of its former contents, sorted by ascending timestamp; the log
records themselves are exactly the original ones. -/
theorem claim_C9_batch_sorted_in_place (s : AnalyzerState) (now : Int)
    (logs : List TrafficLog) (remote : RemoteAnomalyOutcome) :
    (detectAnomalies s now logs remote).2.1.Perm logs ∧
    List.Sorted tsLE (detectAnomalies s now logs remote).2.1 := by
  cases logs with
  | nil => exact ⟨List.Perm.refl _, List.sorted_nil⟩
  | cons l ls =>
    rw [detectAnomalies_array]
    exact ⟨List.perm_insertionSort tsLE (l :: ls), List.sorted_insertionSort tsLE (l :: ls)⟩

/-! ## Claim C7 -/

/-- C7: when the adapter is enabled and at rest (the minimum delay has elapsed
before the first call), two `analyzeTrafficLog` calls issued less than the
2-second minimum delay apart perform exactly one remote invocation between
them — whatever the first remote call's outcome — and both return an
analysis, the second being the heuristic fallback for its own input,
unchanged. -/
theorem claim_C7_rate_limited_single_invocation (s : AnalyzerState) (t1 t2 : Int)
    (log1 log2 : TrafficLog) (rN1 rN2 : Bool) (rI1 rI2 : Nat)
    (rem1 rem2 : RemoteAnalysisOutcome)
    (hEnabled : s.useAdvancedAnalysis = true)
    (hElapsed : apiCallDelay ≤ t1 - s.lastApiCall)
    (hClose : t2 - t1 < apiCallDelay) :
    (analyzeTrafficLog s t1 log1 rN1 rI1 rem1).2.2 +
      (analyzeTrafficLog (analyzeTrafficLog s t1 log1 rN1 rI1 rem1).2.1
        t2 log2 rN2 rI2 rem2).2.2 = 1 ∧
    (analyzeTrafficLog (analyzeTrafficLog s t1 log1 rN1 rI1 rem1).2.1
        t2 log2 rN2 rI2 rem2).1 =
      .plain (performEnhancedAnalysis log2 rN2 rI2) := by
  obtain ⟨u, last⟩ := s
  dsimp only at hEnabled hElapsed
  subst hEnabled
  have hnot1 : ¬(t1 - last < apiCallDelay) := by omega
  cases rem1 with
  | ok resp =>
    simp [analyzeTrafficLog, hnot1, hClose]
  | err quota =>
    cases quota with
    | true => simp [analyzeTrafficLog, hnot1]
    | false => simp [analyzeTrafficLog, hnot1, hClose]

/-- Witness for C7: a fresh adapter (`lastApiCall = 0`), first call at
t = 5000 ms, second at t = 6000 ms, first remote call erroring without a
quota status. -/
theorem claim_C7_rate_limited_single_invocation_witness :
    (⟨true, 0⟩ : AnalyzerState).useAdvancedAnalysis = true ∧
    apiCallDelay ≤ (5000 : Int) - (⟨true, 0⟩ : AnalyzerState).lastApiCall ∧
    (6000 : Int) - 5000 < apiCallDelay ∧
    ((analyzeTrafficLog ⟨true, 0⟩ 5000 c5Log false 0 (.err false)).2.2 +
      (analyzeTrafficLog (analyzeTrafficLog ⟨true, 0⟩ 5000 c5Log false 0 (.err false)).2.1
        6000 c5Log false 0 (.err false)).2.2 = 1 ∧
    (analyzeTrafficLog (analyzeTrafficLog ⟨true, 0⟩ 5000 c5Log false 0 (.err false)).2.1
        6000 c5Log false 0 (.err false)).1 =
      .plain (performEnhancedAnalysis c5Log false 0)) :=
  ⟨rfl, by decide, by decide,
    claim_C7_rate_limited_single_invocation ⟨true, 0⟩ 5000 6000 c5Log c5Log
      false false 0 0 (.err false) (.err false) rfl (by decide) (by decide)⟩

/-! ## Claim C2 -/

/-- A concrete stored attack pattern for the C2 counterexample. -/
def c2Pattern : AttackPattern :=
  { id := 1
    name := "Suspicious Login Pattern"
    description := "Repeated failed logins"
    confidence := 80
    occurrences := 5
    firstSeen := 1700000000000
    lastSeen := 1700000300000
    technique := "Credential stuffing"
    riskScore := 7
    status := "new"
    aiGenerated := true }

/-- Counterexample to C2: the PATCH handler accepts the arbitrary status
string "totally_bogus" for an existing pattern — it answers `ok` and stores
the string verbatim, leaving the store with a status outside the four
enumerated values.  The claim's rejection at the API boundary does not
happen. -/
theorem claim_C2_counterexample :
    (patchAttackPatternStatus [c2Pattern] 1 (some "totally_bogus")).1 =
      PatchResult.ok { c2Pattern with status := "totally_bogus" } ∧
    ((patchAttackPatternStatus [c2Pattern] 1 (some "totally_bogus")).2.map
      (fun p => p.status)) = ["totally_bogus"] ∧
    ("totally_bogus" ∈ enumeratedStatuses) = False := by
  refine ⟨by decide, by decide, ?_⟩
  simp [enumeratedStatuses]

/-- C2 as amended: the status-update operation succeeds for every non-empty
status string — in particular for each of the four enumerated values — and
the only rejection at the API boundary is 400 for a missing or empty status
(plus 404 for an unknown id); arbitrary non-empty strings are stored
verbatim, so stored statuses are not confined to the enumeration. -/
theorem claim_C2_amended_no_enum_validation (store : List AttackPattern) (id : Int)
    (st : String) (p : AttackPattern)
    (hne : st ≠ "")
    (hfind : store.find? (fun q => q.id == id) = some p) :
    (patchAttackPatternStatus store id (some st)).1 = .ok { p with status := st } ∧
    (patchAttackPatternStatus store id none).1 = .badRequest ∧
    (patchAttackPatternStatus store id (some "")).1 = .badRequest := by
  refine ⟨?_, rfl, rfl⟩
  unfold patchAttackPatternStatus updateAttackPatternStatus
  rw [hfind]
  have hbeq : (st == "") = false := by
    simpa using hne
  simp [hbeq]

/-- Witness for the amended C2 at the enumerated value "confirmed". -/
theorem claim_C2_amended_no_enum_validation_witness :
    ("confirmed" : String) ≠ "" ∧
    [c2Pattern].find? (fun q => q.id == 1) = some c2Pattern ∧
    ((patchAttackPatternStatus [c2Pattern] 1 (some "confirmed")).1 =
        .ok { c2Pattern with status := "confirmed" } ∧
      (patchAttackPatternStatus [c2Pattern] 1 none).1 = .badRequest ∧
      (patchAttackPatternStatus [c2Pattern] 1 (some "")).1 = .badRequest) :=
  ⟨by decide, by decide,
    claim_C2_amended_no_enum_validation [c2Pattern] 1 "confirmed" c2Pattern
      (by decide) (by decide)⟩

/-! ## Claim C1 -/

/-- C1: with the database-backed storage the routes use, a store of exactly
25 logs and no active filters answers `limit=10&page=3` with 5 records,
`total = 25` and `totalPages = 3`. -/
theorem claim_C1_pagination (db : List TrafficLog) (h : db.length = 25) :
    (getTrafficLogsRoute db none none none 3 10).data.length = 5 ∧
    (getTrafficLogsRoute db none none none 3 10).total = 25 ∧
    (getTrafficLogsRoute db none none none 3 10).totalPages = 3 := by
  have hfilter : db.filter (dbCondHolds none none none) = db :=
    List.filter_eq_self.mpr (fun a _ => rfl)
  have hsortlen : (List.insertionSort tsGE db).length = 25 := by
    rw [(List.perm_insertionSort tsGE db).length_eq, h]
  unfold getTrafficLogsRoute dbGetTrafficLogs dbGetTrafficLogCount
  dsimp only
  rw [hfilter]
  refine ⟨?_, by rw [h], by rw [h]⟩
  simp [List.length_take, List.length_drop, hsortlen]

/-- Witness for C1: a concrete store of 25 identical logs. -/
theorem claim_C1_pagination_witness :
    (List.replicate 25 c5Log).length = 25 ∧
    ((getTrafficLogsRoute (List.replicate 25 c5Log) none none none 3 10).data.length = 5 ∧
      (getTrafficLogsRoute (List.replicate 25 c5Log) none none none 3 10).total = 25 ∧
      (getTrafficLogsRoute (List.replicate 25 c5Log) none none none 3 10).totalPages = 3) :=
  ⟨by simp, claim_C1_pagination (List.replicate 25 c5Log) (by simp)⟩

/-! ## Claim C3 -/

/-- A remote reply whose `attackType` has the wrong type (a number) and whose
`riskScore` has the wrong type (a non-numeric string); everything else is
omitted. -/
def c3Remote : RemoteAnalysis :=
  { attackType := .jnum 42
    technique := .jundef
    riskScore := .jstr "high"
    recommendations := .jundef
    confidence := .jundef
    isNewPattern := .jundef
    patternName := .jundef
    patternDescription := .jundef }

/-- Counterexample to C3: when the remote reply sends `riskScore: "high"` the
merged riskScore is `NaN` (`none`) — neither a number in [1,10] nor the
fallback's value — and a wrong-typed truthy `attackType: 42` is passed
through instead of being replaced by the fallback's string. -/
theorem claim_C3_counterexample :
    (mergeAnalysis c3Remote (performEnhancedAnalysis c5Log false 0)).riskScore = none ∧
    (mergeAnalysis c3Remote (performEnhancedAnalysis c5Log false 0)).attackType ≠
      JVal.jstr (performEnhancedAnalysis c5Log false 0).attackType := by
  decide

/-- A remote numeric field is a JSON number, `null`, or absent. -/
def numericOrAbsent (v : JVal) : Prop :=
  v = .jnull ∨ v = .jundef ∨ ∃ n : Int, v = .jnum n

lemma clamp_risk_eq {r : Int} (h1 : 1 ≤ r) (h2 : r ≤ 10) : max 1 (min 10 r) = r := by
  omega

lemma clamp_conf_eq {c : Int} (h1 : 0 ≤ c) (h2 : c ≤ 100) : max 0 (min 100 c) = c := by
  omega

/-- C3 as amended: if the fallback is the heuristic analysis and the remote
riskScore and confidence fields are numbers, `null`, or absent, the merged
analysis has riskScore in [1,10] and confidence in [0,100]; every field the
remote **omits** is taken from the fallback (recommendations additionally
falls back for every non-array value).  Wrong-typed values in general are
not substituted: a truthy wrong-typed string field passes through and a
non-numeric string in a numeric field yields NaN (the counterexample). -/
theorem claim_C3_amended_merge_clamps (log : TrafficLog) (rN : Bool) (rI : Nat)
    (a : RemoteAnalysis) (fb : AttackAnalysis)
    (hfb : fb = performEnhancedAnalysis log rN rI)
    (hr : numericOrAbsent a.riskScore) (hc : numericOrAbsent a.confidence) :
    (∃ r, (mergeAnalysis a fb).riskScore = some r ∧ 1 ≤ r ∧ r ≤ 10) ∧
    (∃ c, (mergeAnalysis a fb).confidence = some c ∧ 0 ≤ c ∧ c ≤ 100) ∧
    (a.riskScore = .jundef → (mergeAnalysis a fb).riskScore = some fb.riskScore) ∧
    (a.confidence = .jundef → (mergeAnalysis a fb).confidence = some fb.confidence) ∧
    (a.attackType = .jundef → (mergeAnalysis a fb).attackType = .jstr fb.attackType) ∧
    (a.technique = .jundef → (mergeAnalysis a fb).technique = .jstr fb.technique) ∧
    ((∀ xs, a.recommendations ≠ .jarr xs) →
      (mergeAnalysis a fb).recommendations = fb.recommendations.map .jstr) ∧
    (a.isNewPattern = .jundef → (mergeAnalysis a fb).isNewPattern = fb.isNewPattern) ∧
    (a.patternName = .jundef → (mergeAnalysis a fb).patternName = optToJVal fb.patternName) ∧
    (a.patternDescription = .jundef →
      (mergeAnalysis a fb).patternDescription = optToJVal fb.patternDescription) := by
  have hr1 : 1 ≤ fb.riskScore := by rw [hfb]; exact calculateEnhancedRiskScore_lb log
  have hr2 : fb.riskScore ≤ 10 := by rw [hfb]; exact calculateEnhancedRiskScore_ub log
  have hc1 : (0 : Int) ≤ fb.confidence := by
    rw [hfb]
    have := calculateConfidence_lb log
    show (0 : Int) ≤ calculateConfidence log
    omega
  have hc2 : fb.confidence ≤ 100 := by
    rw [hfb]
    have := calculateConfidence_ub log
    show calculateConfidence log ≤ (100 : Int)
    omega
  refine ⟨?_, ?_, ?_, ?_, ?_, ?_, ?_, ?_, ?_, ?_⟩
  · -- merged riskScore is a number in [1,10]
    rcases hr with h | h | ⟨n, h⟩
    · exact ⟨fb.riskScore, by simp [mergeAnalysis, jsOr, h, JVal.truthy, JVal.toNumber,
        clamp_risk_eq hr1 hr2], hr1, hr2⟩
    · exact ⟨fb.riskScore, by simp [mergeAnalysis, jsOr, h, JVal.truthy, JVal.toNumber,
        clamp_risk_eq hr1 hr2], hr1, hr2⟩
    · by_cases hn : n = 0
      · subst hn
        exact ⟨fb.riskScore, by simp [mergeAnalysis, jsOr, h, JVal.truthy, JVal.toNumber,
          clamp_risk_eq hr1 hr2], hr1, hr2⟩
      · refine ⟨max 1 (min 10 n), ?_, le_max_left _ _, by omega⟩
        have htr : (JVal.jnum n).truthy = true := by
          simp [JVal.truthy, hn]
        simp [mergeAnalysis, jsOr, h, htr, JVal.toNumber]
  · -- merged confidence is a number in [0,100]
    rcases hc with h | h | ⟨n, h⟩
    · exact ⟨fb.confidence, by simp [mergeAnalysis, jsOr, h, JVal.truthy, JVal.toNumber,
        clamp_conf_eq hc1 hc2], hc1, hc2⟩
    · exact ⟨fb.confidence, by simp [mergeAnalysis, jsOr, h, JVal.truthy, JVal.toNumber,
        clamp_conf_eq hc1 hc2], hc1, hc2⟩
    · by_cases hn : n = 0
      · subst hn
        exact ⟨fb.confidence, by simp [mergeAnalysis, jsOr, h, JVal.truthy, JVal.toNumber,
          clamp_conf_eq hc1 hc2], hc1, hc2⟩
      · refine ⟨max 0 (min 100 n), ?_, le_max_left _ _, by omega⟩
        have htr : (JVal.jnum n).truthy = true := by
          simp [JVal.truthy, hn]
        simp [mergeAnalysis, jsOr, h, htr, JVal.toNumber]
  · intro h
    simp [mergeAnalysis, jsOr, h, JVal.truthy, JVal.toNumber, clamp_risk_eq hr1 hr2]
  · intro h
    simp [mergeAnalysis, jsOr, h, JVal.truthy, JVal.toNumber, clamp_conf_eq hc1 hc2]
  · intro h
    simp [mergeAnalysis, jsOr, h, JVal.truthy]
  · intro h
    simp [mergeAnalysis, jsOr, h, JVal.truthy]
  · intro hno
    cases hv : a.recommendations with
    | jarr xs => exact absurd hv (hno xs)
    | jnum n => simp [mergeAnalysis, hv]
    | jstr s => simp [mergeAnalysis, hv]
    | jbool b => simp [mergeAnalysis, hv]
    | jnull => simp [mergeAnalysis, hv]
    | jobj => simp [mergeAnalysis, hv]
    | jundef => simp [mergeAnalysis, hv]
  · intro h
    simp [mergeAnalysis, h, JVal.truthy]
  · intro h
    simp [mergeAnalysis, jsOr, h, JVal.truthy]
  · intro h
    simp [mergeAnalysis, jsOr, h, JVal.truthy]

/-- A remote reply with an in-range numeric riskScore, everything else
omitted, for the C3 amended witness. -/
def c3OkRemote : RemoteAnalysis :=
  { attackType := .jundef
    technique := .jundef
    riskScore := .jnum 3
    recommendations := .jundef
    confidence := .jundef
    isNewPattern := .jundef
    patternName := .jundef
    patternDescription := .jundef }

/-- Witness for the amended C3 at a concrete log and remote reply. -/
theorem claim_C3_amended_merge_clamps_witness :
    (performEnhancedAnalysis c5Log false 0 = performEnhancedAnalysis c5Log false 0) ∧
    numericOrAbsent c3OkRemote.riskScore ∧
    numericOrAbsent c3OkRemote.confidence ∧
    ((∃ r, (mergeAnalysis c3OkRemote (performEnhancedAnalysis c5Log false 0)).riskScore =
        some r ∧ 1 ≤ r ∧ r ≤ 10) ∧
      (∃ c, (mergeAnalysis c3OkRemote (performEnhancedAnalysis c5Log false 0)).confidence =
        some c ∧ 0 ≤ c ∧ c ≤ 100) ∧
      (c3OkRemote.riskScore = .jundef →
        (mergeAnalysis c3OkRemote (performEnhancedAnalysis c5Log false 0)).riskScore =
          some (performEnhancedAnalysis c5Log false 0).riskScore) ∧
      (c3OkRemote.confidence = .jundef →
        (mergeAnalysis c3OkRemote (performEnhancedAnalysis c5Log false 0)).confidence =
          some (performEnhancedAnalysis c5Log false 0).confidence) ∧
      (c3OkRemote.attackType = .jundef →
        (mergeAnalysis c3OkRemote (performEnhancedAnalysis c5Log false 0)).attackType =
          .jstr (performEnhancedAnalysis c5Log false 0).attackType) ∧
      (c3OkRemote.technique = .jundef →
        (mergeAnalysis c3OkRemote (performEnhancedAnalysis c5Log false 0)).technique =
          .jstr (performEnhancedAnalysis c5Log false 0).technique) ∧
      ((∀ xs, c3OkRemote.recommendations ≠ .jarr xs) →
        (mergeAnalysis c3OkRemote (performEnhancedAnalysis c5Log false 0)).recommendations =
          (performEnhancedAnalysis c5Log false 0).recommendations.map .jstr) ∧
      (c3OkRemote.isNewPattern = .jundef →
        (mergeAnalysis c3OkRemote (performEnhancedAnalysis c5Log false 0)).isNewPattern =
          (performEnhancedAnalysis c5Log false 0).isNewPattern) ∧
      (c3OkRemote.patternName = .jundef →
        (mergeAnalysis c3OkRemote (performEnhancedAnalysis c5Log false 0)).patternName =
          optToJVal (performEnhancedAnalysis c5Log false 0).patternName) ∧
      (c3OkRemote.patternDescription = .jundef →
        (mergeAnalysis c3OkRemote (performEnhancedAnalysis c5Log false 0)).patternDescription =
          optToJVal (performEnhancedAnalysis c5Log false 0).patternDescription)) :=
  ⟨rfl, Or.inr (Or.inr ⟨3, rfl⟩), Or.inr (Or.inl rfl),
    claim_C3_amended_merge_clamps c5Log false 0 c3OkRemote
      (performEnhancedAnalysis c5Log false 0) rfl
      (Or.inr (Or.inr ⟨3, rfl⟩)) (Or.inr (Or.inl rfl))⟩

/-! ## Claim C6: properties of `groupByIP` -/

/-- JavaScript `Map.get(ip) || []` on the grouping list. -/
def lookupGroup : List (String × List TrafficLog) → String → List TrafficLog
  | [], _ => []
  | (k, ls) :: rest, ip => if k == ip then ls else lookupGroup rest ip

/-- The keys of the grouping, in iteration order. -/
def groupKeys (gs : List (String × List TrafficLog)) : List String :=
  gs.map Prod.fst

lemma lookupGroup_insertGroup (gs : List (String × List TrafficLog)) (l : TrafficLog)
    (ip : String) :
    lookupGroup (insertGroup gs l) ip =
      if l.sourceIP == ip then lookupGroup gs ip ++ [l] else lookupGroup gs ip := by
  induction gs with
  | nil =>
    by_cases h : l.sourceIP = ip <;> simp [insertGroup, lookupGroup, h]
  | cons g rest ih =>
    obtain ⟨k, ls⟩ := g
    by_cases hk : k = l.sourceIP
    · subst hk
      by_cases hip : l.sourceIP = ip
      · subst hip
        simp [insertGroup, lookupGroup]
      · simp [insertGroup, lookupGroup, hip]
    · by_cases hip : k = ip
      · subst hip
        have hne : ¬(l.sourceIP = k) := fun h => hk h.symm
        simp [insertGroup, lookupGroup, hk, hne]
      · simp [insertGroup, lookupGroup, hk, hip, ih]

lemma lookupGroup_foldl (logs : List TrafficLog) :
    ∀ (gs : List (String × List TrafficLog)) (ip : String),
      lookupGroup (logs.foldl insertGroup gs) ip =
        lookupGroup gs ip ++ logs.filter (fun l => l.sourceIP == ip) := by
  induction logs with
  | nil => intro gs ip; simp
  | cons l ls ih =>
    intro gs ip
    rw [List.foldl_cons, ih, lookupGroup_insertGroup, List.filter_cons]
    by_cases h : l.sourceIP = ip <;> simp [h]

/-- What `groupByIP` stores under a key is exactly the sublist of logs with
that source address, in order. -/
lemma groupByIP_lookup (logs : List TrafficLog) (ip : String) :
    lookupGroup (groupByIP logs) ip = logs.filter (fun l => l.sourceIP == ip) := by
  have := lookupGroup_foldl logs [] ip
  simpa [groupByIP, lookupGroup] using this

lemma mem_groupKeys_insertGroup_self (gs : List (String × List TrafficLog)) (l : TrafficLog) :
    l.sourceIP ∈ groupKeys (insertGroup gs l) := by
  induction gs with
  | nil => simp [insertGroup, groupKeys]
  | cons g rest ih =>
    obtain ⟨k, ls⟩ := g
    by_cases hk : k = l.sourceIP
    · subst hk
      simp [insertGroup, groupKeys]
    · simp only [insertGroup, groupKeys, List.map_cons]
      rw [if_neg (by simpa using hk)]
      exact List.mem_cons_of_mem _ ih

lemma mem_groupKeys_insertGroup_of_mem (gs : List (String × List TrafficLog))
    (l : TrafficLog) (x : String) (hx : x ∈ groupKeys gs) :
    x ∈ groupKeys (insertGroup gs l) := by
  induction gs with
  | nil => simp [groupKeys] at hx
  | cons g rest ih =>
    obtain ⟨k, ls⟩ := g
    by_cases hk : k = l.sourceIP
    · subst hk
      simpa [insertGroup, groupKeys] using hx
    · simp only [insertGroup, groupKeys, List.map_cons]
      rw [if_neg (by simpa using hk)]
      rcases List.mem_cons.mp hx with h | h
      · exact h ▸ List.mem_cons_self _ _
      · exact List.mem_cons_of_mem _ (ih h)

lemma mem_groupKeys_of_insertGroup (gs : List (String × List TrafficLog))
    (l : TrafficLog) (x : String) (hx : x ∈ groupKeys (insertGroup gs l)) :
    x ∈ groupKeys gs ∨ x = l.sourceIP := by
  induction gs with
  | nil =>
    right
    simpa [insertGroup, groupKeys] using hx
  | cons g rest ih =>
    obtain ⟨k, ls⟩ := g
    by_cases hk : k = l.sourceIP
    · subst hk
      left
      simpa [insertGroup, groupKeys] using hx
    · simp only [insertGroup, groupKeys, List.map_cons] at hx
      rw [if_neg (by simpa using hk)] at hx
      rcases List.mem_cons.mp hx with h | h
      · exact Or.inl (h ▸ List.mem_cons_self _ _)
      · rcases ih h with h' | h'
        · exact Or.inl (List.mem_cons_of_mem _ h')
        · exact Or.inr h'

lemma nodup_groupKeys_insertGroup (gs : List (String × List TrafficLog)) (l : TrafficLog)
    (h : (groupKeys gs).Nodup) : (groupKeys (insertGroup gs l)).Nodup := by
  induction gs with
  | nil => simp [insertGroup, groupKeys]
  | cons g rest ih =>
    obtain ⟨k, ls⟩ := g
    simp only [groupKeys, List.map_cons, List.nodup_cons] at h
    by_cases hk : k = l.sourceIP
    · subst hk
      simp only [insertGroup, groupKeys, List.map_cons]
      rw [if_pos (by simp)]
      simp only [List.map_cons, List.nodup_cons]
      exact h
    · simp only [insertGroup, groupKeys, List.map_cons]
      rw [if_neg (by simpa using hk)]
      simp only [List.map_cons, List.nodup_cons]
      refine ⟨?_, ih h.2⟩
      intro hmem
      rcases mem_groupKeys_of_insertGroup rest l k hmem with h' | h'
      · exact h.1 h'
      · exact hk h'

lemma nodup_groupKeys_foldl (logs : List TrafficLog) :
    ∀ gs : List (String × List TrafficLog), (groupKeys gs).Nodup →
      (groupKeys (logs.foldl insertGroup gs)).Nodup := by
  induction logs with
  | nil => intro gs h; simpa using h
  | cons l ls ih =>
    intro gs h
    exact ih (insertGroup gs l) (nodup_groupKeys_insertGroup gs l h)

/-- The grouping never repeats a key. -/
lemma nodup_groupKeys_groupByIP (logs : List TrafficLog) :
    (groupKeys (groupByIP logs)).Nodup :=
  nodup_groupKeys_foldl logs [] (by simp [groupKeys])

lemma mem_groupKeys_foldl_of_mem (logs : List TrafficLog) :
    ∀ (gs : List (String × List TrafficLog)) (x : String), x ∈ groupKeys gs →
      x ∈ groupKeys (logs.foldl insertGroup gs) := by
  induction logs with
  | nil => intro gs x h; simpa using h
  | cons l ls ih =>
    intro gs x h
    exact ih (insertGroup gs l) x (mem_groupKeys_insertGroup_of_mem gs l x h)

lemma mem_groupKeys_foldl_of_src (ls : List TrafficLog) :
    ∀ (gs : List (String × List TrafficLog)) (a : TrafficLog), a ∈ ls →
      a.sourceIP ∈ groupKeys (ls.foldl insertGroup gs) := by
  induction ls with
  | nil => intro gs a h; simp at h
  | cons b bs ih =>
    intro gs a h
    rcases List.mem_cons.mp h with h' | h'
    · subst h'
      exact mem_groupKeys_foldl_of_mem bs (insertGroup gs a) a.sourceIP
        (mem_groupKeys_insertGroup_self gs a)
    · exact ih (insertGroup gs b) a h'

lemma mem_groupKeys_groupByIP (logs : List TrafficLog) (ip : String)
    (h : ∃ l ∈ logs, l.sourceIP = ip) : ip ∈ groupKeys (groupByIP logs) := by
  obtain ⟨l, hl, hip⟩ := h
  subst hip
  exact mem_groupKeys_foldl_of_src logs [] l hl

lemma pair_mem_of_mem_groupKeys (gs : List (String × List TrafficLog)) (ip : String)
    (h : ip ∈ groupKeys gs) : (ip, lookupGroup gs ip) ∈ gs := by
  induction gs with
  | nil => simp [groupKeys] at h
  | cons g rest ih =>
    obtain ⟨k, ls⟩ := g
    by_cases hk : k = ip
    · subst hk
      simp [lookupGroup]
    · simp only [groupKeys, List.map_cons, List.mem_cons] at h
      rcases h with h | h
      · exact absurd h.symm hk
      · simp only [lookupGroup]
        rw [if_neg (by simpa using hk)]
        exact List.mem_cons_of_mem _ (ih h)

lemma filter_key_singleton (gs : List (String × List TrafficLog)) (ip : String)
    (v : List TrafficLog) (hnd : (groupKeys gs).Nodup) (hmem : (ip, v) ∈ gs) :
    gs.filter (fun e => e.1 == ip) = [(ip, v)] := by
  induction gs with
  | nil => simp at hmem
  | cons g rest ih =>
    obtain ⟨k, ls⟩ := g
    simp only [groupKeys, List.map_cons, List.nodup_cons] at hnd
    rcases List.mem_cons.mp hmem with h | h
    · -- the head is the pair
      have hk : k = ip := (congrArg Prod.fst h).symm
      have hv : ls = v := (congrArg Prod.snd h).symm
      rw [hk] at hnd
      rw [hk, hv, List.filter_cons]
      rw [if_pos (by simp)]
      have hrest : rest.filter (fun e => e.1 == ip) = [] := by
        rw [List.filter_eq_nil_iff]
        intro a ha hpa
        exact hnd.1 (by
          have ha1 : a.1 = ip := by simpa using hpa
          exact ha1 ▸ List.mem_map_of_mem Prod.fst ha)
      rw [hrest]
    · -- the pair is in the tail, so the head key differs
      have hk : ¬(k = ip) := by
        intro hk
        subst hk
        exact hnd.1 (by simpa using List.mem_map_of_mem Prod.fst h)
      rw [List.filter_cons]
      rw [if_neg (by simpa using hk)]
      exact ih hnd.2 h

lemma foldl_min_mem : ∀ (as : List Int) (a : Int), as.foldl min a ∈ a :: as := by
  intro as
  induction as with
  | nil => intro a; simp
  | cons b bs ih =>
    intro a
    rw [List.foldl_cons]
    rcases List.mem_cons.mp (ih (min a b)) with h | h
    · rcases min_choice a b with h' | h'
      · rw [h, h']
        exact List.mem_cons_self _ _
      · rw [h, h']
        exact List.mem_cons_of_mem _ (List.mem_cons_self _ _)
    · exact List.mem_cons_of_mem _ (List.mem_cons_of_mem _ h)

lemma foldl_min_le_init : ∀ (as : List Int) (a : Int), as.foldl min a ≤ a := by
  intro as
  induction as with
  | nil => intro a; simp
  | cons b bs ih =>
    intro a
    rw [List.foldl_cons]
    exact le_trans (ih (min a b)) (min_le_left a b)

lemma foldl_min_le_mem : ∀ (as : List Int) (a t : Int), t ∈ as → as.foldl min a ≤ t := by
  intro as
  induction as with
  | nil => intro a t h; simp at h
  | cons b bs ih =>
    intro a t h
    rw [List.foldl_cons]
    rcases List.mem_cons.mp h with h | h
    · rw [h]
      exact le_trans (foldl_min_le_init bs (min a b)) (min_le_right a b)
    · exact ih (min a b) t h

lemma foldl_max_mem : ∀ (as : List Int) (a : Int), as.foldl max a ∈ a :: as := by
  intro as
  induction as with
  | nil => intro a; simp
  | cons b bs ih =>
    intro a
    rw [List.foldl_cons]
    rcases List.mem_cons.mp (ih (max a b)) with h | h
    · rcases max_choice a b with h' | h'
      · rw [h, h']
        exact List.mem_cons_self _ _
      · rw [h, h']
        exact List.mem_cons_of_mem _ (List.mem_cons_self _ _)
    · exact List.mem_cons_of_mem _ (List.mem_cons_of_mem _ h)

lemma foldl_max_ge_init : ∀ (as : List Int) (a : Int), a ≤ as.foldl max a := by
  intro as
  induction as with
  | nil => intro a; simp
  | cons b bs ih =>
    intro a
    rw [List.foldl_cons]
    exact le_trans (le_max_left a b) (ih (max a b))

lemma foldl_max_ge_mem : ∀ (as : List Int) (a t : Int), t ∈ as → t ≤ as.foldl max a := by
  intro as
  induction as with
  | nil => intro a t h; simp at h
  | cons b bs ih =>
    intro a t h
    rw [List.foldl_cons]
    rcases List.mem_cons.mp h with h | h
    · rw [h]
      exact le_trans (le_max_right a b) (foldl_max_ge_init bs (max a b))
    · exact ih (max a b) t h

lemma getD_jsMinList_mem (xs : List Int) (h : xs ≠ []) : (jsMinList xs).getD 0 ∈ xs := by
  cases xs with
  | nil => exact absurd rfl h
  | cons a as =>
    simpa [jsMinList] using foldl_min_mem as a

lemma getD_jsMinList_le (xs : List Int) (t : Int) (ht : t ∈ xs) :
    (jsMinList xs).getD 0 ≤ t := by
  cases xs with
  | nil => simp at ht
  | cons a as =>
    simp only [jsMinList, Option.getD_some]
    rcases List.mem_cons.mp ht with h | h
    · rw [h]
      exact foldl_min_le_init as a
    · exact foldl_min_le_mem as a t h

lemma getD_jsMaxList_mem (xs : List Int) (h : xs ≠ []) : (jsMaxList xs).getD 0 ∈ xs := by
  cases xs with
  | nil => exact absurd rfl h
  | cons a as =>
    simpa [jsMaxList] using foldl_max_mem as a

lemma getD_jsMaxList_ge (xs : List Int) (t : Int) (ht : t ∈ xs) :
    t ≤ (jsMaxList xs).getD 0 := by
  cases xs with
  | nil => simp at ht
  | cons a as =>
    simp only [jsMaxList, Option.getD_some]
    rcases List.mem_cons.mp ht with h | h
    · rw [h]
      exact foldl_max_ge_init as a
    · exact foldl_max_ge_mem as a t h

/-- C6: if some source address has at least 3 logs spanning at least 2
distinct attack types, the grouping holds exactly one entry for that address
(so the coordinated-attack detector, which emits at most one pattern per
entry, emits exactly one pattern for it), that pattern is in the detector's
output, and it carries name "Multi-Vector Coordinated Attack", confidence 85,
riskScore 8, occurrences = group size, and firstSeen/lastSeen equal to the
minimum/maximum timestamp of the group. -/
theorem claim_C6_multi_vector_coordinated (logs : List TrafficLog) (ip : String)
    (h3 : 3 ≤ (logs.filter (fun l => l.sourceIP == ip)).length)
    (h2 : 2 ≤ (((logs.filter (fun l => l.sourceIP == ip)).map
      (fun l => l.attackType)).dedup).length) :
    ∃ p : InsertAttackPattern,
      (groupByIP logs).filter (fun e => e.1 == ip) =
        [(ip, logs.filter (fun l => l.sourceIP == ip))] ∧
      mkCoordPattern (ip, logs.filter (fun l => l.sourceIP == ip)) = some p ∧
      p ∈ detectCoordinatedAttacks (groupByIP logs) ∧
      p.name = "Multi-Vector Coordinated Attack" ∧
      p.confidence = 85 ∧
      p.riskScore = 8 ∧
      p.occurrences = (logs.filter (fun l => l.sourceIP == ip)).length ∧
      p.firstSeen ∈ (logs.filter (fun l => l.sourceIP == ip)).map (fun l => l.timestamp) ∧
      (∀ t ∈ (logs.filter (fun l => l.sourceIP == ip)).map (fun l => l.timestamp),
        p.firstSeen ≤ t) ∧
      p.lastSeen ∈ (logs.filter (fun l => l.sourceIP == ip)).map (fun l => l.timestamp) ∧
      (∀ t ∈ (logs.filter (fun l => l.sourceIP == ip)).map (fun l => l.timestamp),
        t ≤ p.lastSeen) := by
  set g := logs.filter (fun l => l.sourceIP == ip) with hg
  have hne : g ≠ [] := by
    intro h0
    rw [h0] at h3
    simp at h3
  have hex : ∃ l ∈ logs, l.sourceIP = ip := by
    cases hgl : g with
    | nil => exact absurd hgl hne
    | cons x xs =>
      have hx : x ∈ g := by rw [hgl]; exact List.mem_cons_self _ _
      rw [hg] at hx
      have h' := List.mem_filter.mp hx
      exact ⟨x, h'.1, by simpa using h'.2⟩
  have hkey := mem_groupKeys_groupByIP logs ip hex
  have hlk : lookupGroup (groupByIP logs) ip = g := by
    rw [hg]
    exact groupByIP_lookup logs ip
  have hpair : (ip, g) ∈ groupByIP logs := by
    have h' := pair_mem_of_mem_groupKeys (groupByIP logs) ip hkey
    rw [hlk] at h'
    exact h'
  have hfilter := filter_key_singleton (groupByIP logs) ip g
    (nodup_groupKeys_groupByIP logs) hpair
  have hmapne : g.map (fun l => l.timestamp) ≠ [] := by
    intro h0
    apply hne
    simpa using h0
  have hmk : mkCoordPattern (ip, g) = some
      { name := "Multi-Vector Coordinated Attack"
        description := "Coordinated attack from " ++ ip ++ " using " ++
          toString ((g.map (fun l => l.attackType)).dedup).length ++
          " different attack vectors within short timeframe"
        confidence := 85
        occurrences := g.length
        firstSeen := (jsMinList (g.map (fun l => l.timestamp))).getD 0
        lastSeen := (jsMaxList (g.map (fun l => l.timestamp))).getD 0
        technique := "Multi-stage attack coordination"
        riskScore := 8
        status := "new"
        aiGenerated := true } := by
    simp only [mkCoordPattern]
    rw [if_pos h3, if_pos h2]
  refine ⟨_, hfilter, hmk, ?_, rfl, rfl, rfl, rfl, ?_, ?_, ?_, ?_⟩
  · exact List.mem_filterMap.mpr ⟨(ip, g), hpair, hmk⟩
  · exact getD_jsMinList_mem _ hmapne
  · intro t ht
    exact getD_jsMinList_le _ t ht
  · exact getD_jsMaxList_mem _ hmapne
  · intro t ht
    exact getD_jsMaxList_ge _ t ht

/-- C6 witness group: three logs from one source address with three distinct
attack types. -/
def c6Logs : List TrafficLog :=
  [{ id := 1, timestamp := 1000, sourceIP := "198.51.100.9", country := "US",
     attackType := "SQL Injection", target := "/login", severity := "medium",
     status := "monitored", payload := none, userAgent := none, method := "POST",
     port := 80 },
   { id := 2, timestamp := 2000, sourceIP := "198.51.100.9", country := "US",
     attackType := "XSS Attempt", target := "/search", severity := "low",
     status := "monitored", payload := none, userAgent := none, method := "GET",
     port := 80 },
   { id := 3, timestamp := 3000, sourceIP := "198.51.100.9", country := "US",
     attackType := "Brute Force", target := "/login", severity := "high",
     status := "blocked", payload := none, userAgent := none, method := "POST",
     port := 443 }]

/-- Witness for C6 at the concrete three-log batch. -/
theorem claim_C6_multi_vector_coordinated_witness :
    3 ≤ (c6Logs.filter (fun l => l.sourceIP == "198.51.100.9")).length ∧
    2 ≤ (((c6Logs.filter (fun l => l.sourceIP == "198.51.100.9")).map
      (fun l => l.attackType)).dedup).length ∧
    (∃ p : InsertAttackPattern,
      (groupByIP c6Logs).filter (fun e => e.1 == "198.51.100.9") =
        [("198.51.100.9", c6Logs.filter (fun l => l.sourceIP == "198.51.100.9"))] ∧
      mkCoordPattern ("198.51.100.9",
        c6Logs.filter (fun l => l.sourceIP == "198.51.100.9")) = some p ∧
      p ∈ detectCoordinatedAttacks (groupByIP c6Logs) ∧
      p.name = "Multi-Vector Coordinated Attack" ∧
      p.confidence = 85 ∧
      p.riskScore = 8 ∧
      p.occurrences = (c6Logs.filter (fun l => l.sourceIP == "198.51.100.9")).length ∧
      p.firstSeen ∈ (c6Logs.filter (fun l => l.sourceIP == "198.51.100.9")).map
        (fun l => l.timestamp) ∧
      (∀ t ∈ (c6Logs.filter (fun l => l.sourceIP == "198.51.100.9")).map
        (fun l => l.timestamp), p.firstSeen ≤ t) ∧
      p.lastSeen ∈ (c6Logs.filter (fun l => l.sourceIP == "198.51.100.9")).map
        (fun l => l.timestamp) ∧
      (∀ t ∈ (c6Logs.filter (fun l => l.sourceIP == "198.51.100.9")).map
        (fun l => l.timestamp), t ≤ p.lastSeen)) :=
  ⟨by decide, by decide,
    claim_C6_multi_vector_coordinated c6Logs "198.51.100.9" (by decide) (by decide)⟩

/-! ## Claim C8 -/

/-- Log template for the C8 batch. -/
def c8Log (idn ts : Int) (ipv atype : String) : TrafficLog :=
  { id := idn, timestamp := ts, sourceIP := ipv, country := "US",
    attackType := atype, target := "/", severity := "low", status := "monitored",
    payload := none, userAgent := none, method := "GET", port := 80 }

/-- A batch with two qualifying coordinated-attack groups whose
first-occurrence order differs between arrival order and timestamp order. -/
def c8Batch : List TrafficLog :=
  [c8Log 1 100 "10.0.0.2" "SQL Injection",
   c8Log 2 10 "10.0.0.1" "SQL Injection",
   c8Log 3 20 "10.0.0.1" "XSS Attempt",
   c8Log 4 30 "10.0.0.1" "Brute Force",
   c8Log 5 110 "10.0.0.2" "XSS Attempt",
   c8Log 6 120 "10.0.0.2" "Brute Force"]

/-- Counterexample to C8: the rule-based detector sorts the caller's batch in
place between its detector passes, so running it twice — even with an
unchanged wall clock — yields different pattern lists: the second run groups
the already-sorted batch, and the two coordinated-attack patterns come out in
the opposite order. -/
theorem claim_C8_counterexample :
    (performRuleBasedAnomalyDetection c8Batch 0).1 ≠
      (performRuleBasedAnomalyDetection
        (performRuleBasedAnomalyDetection c8Batch 0).2 0).1 := by
  decide

/-- C8 as amended: on a batch that is already sorted by ascending timestamp
(so the in-place sort is the identity) and with both runs reading the same
clock, the detector leaves the batch unchanged and a second run returns an
identical pattern list, field for field; without those conditions the in-place
reordering (and the wall-clock timestamps in geographic/payload patterns) can
make the lists differ. -/
theorem claim_C8_amended_stateless_on_sorted (logs : List TrafficLog) (now : Int)
    (h : List.Sorted tsLE logs) :
    (performRuleBasedAnomalyDetection logs now).2 = logs ∧
    (performRuleBasedAnomalyDetection
      (performRuleBasedAnomalyDetection logs now).2 now).1 =
      (performRuleBasedAnomalyDetection logs now).1 := by
  have hs : sortByTimestamp logs = logs := by
    unfold sortByTimestamp
    exact h.insertionSort_eq
  have h2 : (performRuleBasedAnomalyDetection logs now).2 = logs := hs
  exact ⟨h2, by rw [h2]⟩

/-- A concrete timestamp-sorted batch for the C8 amended witness. -/
def c8Sorted : List TrafficLog :=
  [c8Log 1 10 "10.0.0.1" "SQL Injection",
   c8Log 2 20 "10.0.0.1" "XSS Attempt",
   c8Log 3 30 "10.0.0.1" "Brute Force"]

/-- Witness for the amended C8 at the concrete sorted batch. -/
theorem claim_C8_amended_stateless_on_sorted_witness :
    List.Sorted tsLE c8Sorted ∧
    ((performRuleBasedAnomalyDetection c8Sorted 0).2 = c8Sorted ∧
      (performRuleBasedAnomalyDetection
        (performRuleBasedAnomalyDetection c8Sorted 0).2 0).1 =
        (performRuleBasedAnomalyDetection c8Sorted 0).1) :=
  ⟨by decide, claim_C8_amended_stateless_on_sorted c8Sorted 0 (by decide)⟩

end SecureHive
